import Mathlib

/-!
Verification of the LLM evaluator backend core: the per-response metrics
engine (app/evaluation/metrics.py) and the aggregation/normalization layer
(app/analytics/cruds/analytics.py).

Numbers are modelled over the rationals. The NLTK word and sentence
tokenizers and the English stop-word list are external resources of the
program; they are modelled as an injected environment of pure functions,
exactly as the code consumes them.
-/

namespace LLMEval

/-! ## Metrics engine: app/evaluation/metrics.py -/

/-- Python `str.lower` on ASCII text: lower-case every character. -/
def strLower (s : String) : String := String.mk (s.data.map Char.toLower)

/-- The vowel test of the syllable heuristic: membership in "aeiouy". -/
def isVowel (c : Char) : Bool := c ∈ ("aeiouy".data)

/-- The scanning loop of the syllable counter: walks the characters
carrying the flag telling whether the previous character was a vowel, and
adds one on each transition into a vowel. -/
def syllableLoop : List Char → Bool → Nat
  | [], _ => 0
  | c :: cs, prev =>
    (if isVowel c && !prev then 1 else 0) + syllableLoop cs (isVowel c)

/-- Python `s.endswith("e")`: the last character is an "e". -/
def endsWithE (s : String) : Bool := s.data.getLast? = some 'e'

/-- Embedding of metrics.py `_count_syllables`: lower-case the word, count
transitions into a vowel, subtract one for a trailing "e" when the count
exceeds one, and floor at one. -/
def count_syllables (word : String) : Nat :=
  let w := strLower word
  let count := syllableLoop w.data false
  let count := if endsWithE w && decide (count > 1) then count - 1 else count
  max count 1

/-- Embedding of metrics.py `_flesch_kincaid_grade`. The constants 0.39,
11.8 and 15.59 are exact rationals. -/
def flesch_kincaid_grade (num_sentences num_words : Nat) (num_syllables : Nat) : ℚ :=
  if num_sentences = 0 ∨ num_words = 0 then 0
  else (39 / 100) * ((num_words : ℚ) / num_sentences)
       + (59 / 5) * ((num_syllables : ℚ) / num_words) - 1559 / 100

/-- Embedding of the inner `_ratio_for_n` of metrics.py
`_repetition_penalty`: the percentage of repeated n-grams among all
contiguous n-grams of the token list. -/
def ratio_for_n (tokens : List String) (n : Nat) : ℚ :=
  if tokens.length < n then 0
  else
    let ngrams := (List.range (tokens.length - n + 1)).map
      (fun i => (tokens.drop i).take n)
    let total := ngrams.length
    if total = 0 then 0
    else
      let unique := ngrams.dedup.length
      ((total - unique : ℕ) : ℚ) / total * 100

/-- Embedding of metrics.py `_repetition_penalty`: trigram ratio, falling
back to the bigram ratio when the trigram ratio is zero and the text is
shorter than 50 tokens. -/
def repetition_penalty (tokens : List String) : ℚ :=
  let r3 := ratio_for_n tokens 3
  if r3 > 0 ∨ tokens.length ≥ 50 then r3
  else ratio_for_n tokens 2

/-- The external tokenization resources consumed by `calculate_metrics`:
NLTK word and sentence tokenizers and the English stop-word list. -/
structure TokenizerEnv where
  word_tokenize : String → List String
  sent_tokenize : String → List String
  stopwords : List String

/-- The record of the four objective scores returned by the engine. -/
structure MetricRecord where
  lexical_diversity : ℚ
  query_coverage : ℚ
  flesch_kincaid_grade : ℚ
  repetition_penalty : ℚ
  deriving DecidableEq, Repr

/-- Python `s or ""` applied to a possibly-None string: None becomes the
empty string (and the empty string stays empty). -/
def pyOr : Option String → String
  | none => ""
  | some s => s

/-- The prompt-keyword set of `calculate_metrics`: the de-duplicated word
tokens of the lower-cased prompt with the stop words removed. -/
def promptKeywords (env : TokenizerEnv) (prompt : Option String) : List String :=
  ((env.word_tokenize (strLower (pyOr prompt))).dedup).filter
    (fun w => ¬ w ∈ env.stopwords)

/-- Embedding of metrics.py `calculate_metrics`. The inputs are
`Option String` because the Python function guards both arguments with
`or ""`, so None flows through as the empty string. -/
def calculate_metrics (env : TokenizerEnv) (prompt response : Option String) :
    MetricRecord :=
  let text := pyOr response
  let tokens := env.word_tokenize (strLower text)
  if tokens = [] then
    { lexical_diversity := 0, query_coverage := 0
      flesch_kincaid_grade := 0, repetition_penalty := 0 }
  else
    let lexical_diversity := ((tokens.dedup.length : ℚ) / tokens.length) * 100
    let keywords := promptKeywords env prompt
    let response_words := tokens.dedup
    let covered := keywords.filter (fun w => w ∈ response_words)
    let query_coverage :=
      if keywords = [] then 100
      else ((covered.length : ℚ) / keywords.length) * 100
    let sentences := env.sent_tokenize text
    let num_sentences := max sentences.length 1
    let num_words := tokens.length
    let num_syllables := (tokens.map count_syllables).sum
    let fk := flesch_kincaid_grade num_sentences num_words num_syllables
    let rep := repetition_penalty tokens
    { lexical_diversity := lexical_diversity, query_coverage := query_coverage
      flesch_kincaid_grade := fk, repetition_penalty := rep }

/-- Splitting loop over characters: cut at every separator, accumulating
the current piece in reverse. -/
def splitLoop (p : Char → Bool) : List Char → List Char → List (List Char)
  | [], acc => [acc.reverse]
  | c :: cs, acc =>
    if p c then acc.reverse :: splitLoop p cs []
    else splitLoop p cs (c :: acc)

/-- Split a string at every character satisfying the predicate. -/
def splitStr (s : String) (p : Char → Bool) : List String :=
  (splitLoop p s.data []).map String.mk

/-- A concrete sample environment used to evaluate the engine on closed
inputs: whitespace word tokenizer, period sentence tokenizer, and a small
English stop-word list. -/
def sampleEnv : TokenizerEnv where
  word_tokenize s := (splitStr s (fun c => c = ' ')).filter (fun t => t ≠ "")
  sent_tokenize s := (splitStr s (fun c => c = '.')).filter (fun t => t ≠ "")
  stopwords := ["the", "is", "a", "an", "of", "and", "to", "in"]

/-! ## Aggregation and normalization layer: app/analytics/cruds/analytics.py -/

/-- A stored evaluation row as read by `get_analytics`: the generation
parameters plus the four metric fields. -/
structure EvalRow where
  model : String
  temperature : ℚ
  top_p : ℚ
  lexical_diversity : ℚ
  query_coverage : ℚ
  flesch_kincaid_grade : ℚ
  repetition_penalty : ℚ
  deriving DecidableEq, Repr

/-- Arithmetic mean of a list of rationals (SQL AVG over a nonempty group). -/
def mean (xs : List ℚ) : ℚ := xs.sum / xs.length

/-- Embedding of the `_min_max` helper: (0, 0) on an empty list, otherwise
the minimum and maximum. -/
def min_max (vals : List ℚ) : ℚ × ℚ :=
  match vals with
  | [] => (0, 0)
  | v :: vs => (vs.foldl min v, vs.foldl max v)

/-- Embedding of `_norm_high_is_better`: min-max rescale onto 0..100, with
the 1e-9 denominator substituted when the range is degenerate. -/
def norm_high_is_better (x vmin vmax : ℚ) : ℚ :=
  let rng := if vmax - vmin ≠ 0 then vmax - vmin else 1 / 1000000000
  100 * (x - vmin) / rng

/-- Embedding of `_norm_low_is_better`: reversed min-max rescale onto
0..100, with the 1e-9 denominator substituted when the range is
degenerate. -/
def norm_low_is_better (x vmin vmax : ℚ) : ℚ :=
  let rng := if vmax - vmin ≠ 0 then vmax - vmin else 1 / 1000000000
  100 * (vmax - x) / rng

/-- Python `round(x, 2)` on exact values: round half to even at the second
decimal place. -/
def round2 (x : ℚ) : ℚ :=
  let y := 100 * x
  let f := ⌊y⌋
  let frac := y - f
  if frac < 1 / 2 then (f : ℚ) / 100
  else if frac > 1 / 2 then ((f + 1 : ℤ) : ℚ) / 100
  else (if f % 2 = 0 then (f : ℚ) else ((f + 1 : ℤ) : ℚ)) / 100

/-- The grouping key of the scatter view. -/
def scatterKey (r : EvalRow) : String × ℚ × ℚ := (r.model, r.temperature, r.top_p)

/-- The distinct scatter grouping keys (SQL GROUP BY leaves the order
unspecified; here duplicates are removed with `List.dedup`). -/
def scatterKeys (rows : List EvalRow) : List (String × ℚ × ℚ) :=
  (rows.map scatterKey).dedup

/-- A scatter row before normalization: group key, per-group averages of
the four metrics, and the run count (SQL COUNT). -/
structure ScatterAgg where
  model : String
  temperature : ℚ
  top_p : ℚ
  avg_lexical_diversity : ℚ
  avg_query_coverage : ℚ
  avg_fk_grade : ℚ
  avg_repetition_penalty : ℚ
  run_count : Nat
  deriving DecidableEq, Repr

/-- The grouped-average scatter query of `get_analytics`. -/
def scatterAgg (rows : List EvalRow) : List ScatterAgg :=
  (scatterKeys rows).map fun k =>
    let g := rows.filter (fun r => scatterKey r = k)
    { model := k.1, temperature := k.2.1, top_p := k.2.2
      avg_lexical_diversity := mean (g.map (fun r => r.lexical_diversity))
      avg_query_coverage := mean (g.map (fun r => r.query_coverage))
      avg_fk_grade := mean (g.map (fun r => r.flesch_kincaid_grade))
      avg_repetition_penalty := mean (g.map (fun r => r.repetition_penalty))
      run_count := g.length }

/-- A scatter row after the normalization pass added the four norm fields. -/
structure ScatterRow extends ScatterAgg where
  norm_lexical_diversity : ℚ
  norm_query_coverage : ℚ
  norm_fk_grade : ℚ
  norm_repetition_penalty : ℚ
  deriving DecidableEq, Repr

/-- Min and max of the scatter groups' average FK grades. -/
def scatterFkMM (rows : List EvalRow) : ℚ × ℚ :=
  min_max ((scatterAgg rows).map (fun a => a.avg_fk_grade))

/-- Min and max of the scatter groups' average repetition penalties. -/
def scatterRpMM (rows : List EvalRow) : ℚ × ℚ :=
  min_max ((scatterAgg rows).map (fun a => a.avg_repetition_penalty))

/-- The distinct models (duplicates removed with `List.dedup`). -/
def compareKeys (rows : List EvalRow) : List String :=
  (rows.map (fun r => r.model)).dedup

/-- A model-comparison row before normalization. -/
structure CompareAgg where
  model : String
  avg_lexical_diversity : ℚ
  avg_query_coverage : ℚ
  avg_fk_grade : ℚ
  avg_repetition_penalty : ℚ
  deriving DecidableEq, Repr

/-- The grouped-average model-comparison query of `get_analytics`. -/
def compareAgg (rows : List EvalRow) : List CompareAgg :=
  (compareKeys rows).map fun m =>
    let g := rows.filter (fun r => r.model = m)
    { model := m
      avg_lexical_diversity := mean (g.map (fun r => r.lexical_diversity))
      avg_query_coverage := mean (g.map (fun r => r.query_coverage))
      avg_fk_grade := mean (g.map (fun r => r.flesch_kincaid_grade))
      avg_repetition_penalty := mean (g.map (fun r => r.repetition_penalty)) }

/-- A model-comparison row after normalization. -/
structure CompareRow extends CompareAgg where
  norm_lexical_diversity : ℚ
  norm_query_coverage : ℚ
  norm_fk_grade : ℚ
  norm_repetition_penalty : ℚ
  deriving DecidableEq, Repr

/-- Min and max of the comparison groups' average FK grades. -/
def compareFkMM (rows : List EvalRow) : ℚ × ℚ :=
  min_max ((compareAgg rows).map (fun a => a.avg_fk_grade))

/-- Min and max of the comparison groups' average repetition penalties. -/
def compareRpMM (rows : List EvalRow) : ℚ × ℚ :=
  min_max ((compareAgg rows).map (fun a => a.avg_repetition_penalty))

/-- The kpi block of `get_analytics`. -/
structure Kpi where
  overall_avg_lexical_diversity : ℚ
  overall_avg_query_coverage : ℚ
  overall_avg_fk_grade : ℚ
  overall_avg_repetition_penalty : ℚ
  deriving DecidableEq, Repr

/-- SQL AVG over the whole table: NULL (none) when there are no rows. -/
def overallAvg (rows : List EvalRow) (f : EvalRow → ℚ) : Option ℚ :=
  if rows.isEmpty then none else some (mean (rows.map f))

/-- The kpi guard `round(v, 2) if v else 0`: a NULL average or an average
that is exactly zero (Python falsy) yields 0, otherwise the rounded value. -/
def kpiField (o : Option ℚ) : ℚ :=
  match o with
  | none => 0
  | some v => if v = 0 then 0 else round2 v

/-- The full analytics payload. -/
structure AnalyticsPayload where
  scatter_data : List ScatterRow
  model_comparison : List CompareRow
  kpi : Kpi
  deriving DecidableEq, Repr

/-- Embedding of analytics.py `get_analytics` over a list of stored rows:
group and average for the two views, min-max normalize the FK grade
(higher is better) and the repetition penalty (lower is better) within
each view, pass the two percent metrics through rounded, and attach the
overall-average kpi block. -/
def get_analytics (rows : List EvalRow) : AnalyticsPayload :=
  let scatter := scatterAgg rows
  let fkmm := scatterFkMM rows
  let rpmm := scatterRpMM rows
  let scatterRows := scatter.map fun a =>
    { toScatterAgg := a
      norm_lexical_diversity := round2 a.avg_lexical_diversity
      norm_query_coverage := round2 a.avg_query_coverage
      norm_fk_grade := round2 (norm_high_is_better a.avg_fk_grade fkmm.1 fkmm.2)
      norm_repetition_penalty :=
        round2 (norm_low_is_better a.avg_repetition_penalty rpmm.1 rpmm.2) }
  let compare := compareAgg rows
  let cfkmm := compareFkMM rows
  let crpmm := compareRpMM rows
  let compareRows := compare.map fun a =>
    { toCompareAgg := a
      norm_lexical_diversity := round2 a.avg_lexical_diversity
      norm_query_coverage := round2 a.avg_query_coverage
      norm_fk_grade := round2 (norm_high_is_better a.avg_fk_grade cfkmm.1 cfkmm.2)
      norm_repetition_penalty :=
        round2 (norm_low_is_better a.avg_repetition_penalty crpmm.1 crpmm.2) }
  { scatter_data := scatterRows
    model_comparison := compareRows
    kpi :=
      { overall_avg_lexical_diversity :=
          kpiField (overallAvg rows (fun r => r.lexical_diversity))
        overall_avg_query_coverage :=
          kpiField (overallAvg rows (fun r => r.query_coverage))
        overall_avg_fk_grade :=
          kpiField (overallAvg rows (fun r => r.flesch_kincaid_grade))
        overall_avg_repetition_penalty :=
          kpiField (overallAvg rows (fun r => r.repetition_penalty)) } }

/-! ## Specification-side definitions and concrete scenario inputs -/

/-- The spec wording of the syllable transition count, stated independently
of the scanning loop: pair each character with the vowel flag of its
predecessor (the first character has none) and count the characters that
are vowels whose predecessor is not a vowel. -/
def transitionsIntoVowelGroup (cs : List Char) : Nat :=
  ((cs.zip (false :: cs.map isVowel)).filter (fun p => isVowel p.1 && !p.2)).length

/-- The syllable counter as the spec describes it: count left-to-right
transitions into a vowel group, subtract one for a trailing silent "e"
when the count before adjustment exceeds one, and floor at one. -/
def count_syllables_spec (word : String) : Nat :=
  let w := strLower word
  let base := transitionsIntoVowelGroup w.data
  let adjusted := if endsWithE w && decide (1 < base) then base - 1 else base
  max adjusted 1

/-- Scenario input for the two-group normalization check: two scatter
groups whose FK-grade averages are 4 and 10. -/
def rowsTwoGroups : List EvalRow :=
  [ { model := "m1", temperature := 0, top_p := 0, lexical_diversity := 50
      query_coverage := 50, flesch_kincaid_grade := 4, repetition_penalty := 1 },
    { model := "m2", temperature := 0, top_p := 0, lexical_diversity := 60
      query_coverage := 60, flesch_kincaid_grade := 10, repetition_penalty := 3 } ]

/-- Scenario input with a single scatter group (one distinct
(model, temperature, top_p)). -/
def rowsOneGroup : List EvalRow :=
  [ { model := "m1", temperature := 0, top_p := 0, lexical_diversity := 50
      query_coverage := 50, flesch_kincaid_grade := 4, repetition_penalty := 1 } ]

/-- A second single-group input, used to exercise the degenerate-range
guard independently of the counterexample input. -/
def rowsOneGroupB : List EvalRow :=
  [ { model := "mb", temperature := 1, top_p := 1, lexical_diversity := 20
      query_coverage := 30, flesch_kincaid_grade := 7, repetition_penalty := 2 },
    { model := "mb", temperature := 1, top_p := 1, lexical_diversity := 40
      query_coverage := 50, flesch_kincaid_grade := 9, repetition_penalty := 4 } ]

/-- Scenario input whose single group averages lexical diversity 2/3, a
value that is not representable in two decimal places. -/
def rowsThirds : List EvalRow :=
  [ { model := "m1", temperature := 0, top_p := 0, lexical_diversity := 1
      query_coverage := 50, flesch_kincaid_grade := 4, repetition_penalty := 1 },
    { model := "m1", temperature := 0, top_p := 0, lexical_diversity := 1
      query_coverage := 50, flesch_kincaid_grade := 4, repetition_penalty := 1 },
    { model := "m1", temperature := 0, top_p := 0, lexical_diversity := 0
      query_coverage := 50, flesch_kincaid_grade := 4, repetition_penalty := 1 } ]

/-! ## Helper lemmas -/

lemma ratio_for_n_nonneg (tokens : List String) (n : Nat) : 0 ≤ ratio_for_n tokens n := by
  unfold ratio_for_n
  split
  · exact le_refl 0
  · dsimp only
    split
    · exact le_refl 0
    · positivity

lemma round2_zero : round2 0 = 0 := by
  norm_num [round2]

lemma round2_intCast (n : ℤ) : round2 ((n : ℚ)) = n := by
  have h1 : (100 : ℚ) * (n : ℚ) = ((100 * n : ℤ) : ℚ) := by push_cast; ring
  simp only [round2, h1, Int.floor_intCast, sub_self]
  norm_num

lemma round2_hundred : round2 (100 : ℚ) = 100 := by
  exact_mod_cast round2_intCast 100

lemma norm_high_self (x : ℚ) : norm_high_is_better x x x = 0 := by
  simp [norm_high_is_better]

lemma norm_low_self (x : ℚ) : norm_low_is_better x x x = 0 := by
  simp [norm_low_is_better]

lemma syllableLoop_eq_zip_count (cs : List Char) :
    ∀ prev : Bool,
      syllableLoop cs prev =
        ((cs.zip (prev :: cs.map isVowel)).filter (fun p => isVowel p.1 && !p.2)).length := by
  induction cs with
  | nil => intro prev; simp [syllableLoop]
  | cons c cs ih =>
    intro prev
    simp only [syllableLoop, List.map_cons, List.zip_cons_cons, List.filter_cons,
      ih (isVowel c)]
    by_cases hv : (isVowel c && !prev) = true
    · simp [hv]
      omega
    · simp [hv]

lemma scatterAgg_twoGroups : scatterAgg rowsTwoGroups =
    [ { model := "m1", temperature := 0, top_p := 0, avg_lexical_diversity := 50
        avg_query_coverage := 50, avg_fk_grade := 4, avg_repetition_penalty := 1
        run_count := 1 },
      { model := "m2", temperature := 0, top_p := 0, avg_lexical_diversity := 60
        avg_query_coverage := 60, avg_fk_grade := 10, avg_repetition_penalty := 3
        run_count := 1 } ] := by
  have hk : scatterKeys rowsTwoGroups = [("m1", 0, 0), ("m2", 0, 0)] := by decide
  have hf1 : rowsTwoGroups.filter (fun r => scatterKey r = ("m1", 0, 0)) =
      [ { model := "m1", temperature := 0, top_p := 0, lexical_diversity := 50
          query_coverage := 50, flesch_kincaid_grade := 4, repetition_penalty := 1 } ] := by
    decide
  have hf2 : rowsTwoGroups.filter (fun r => scatterKey r = ("m2", 0, 0)) =
      [ { model := "m2", temperature := 0, top_p := 0, lexical_diversity := 60
          query_coverage := 60, flesch_kincaid_grade := 10, repetition_penalty := 3 } ] := by
    decide
  simp only [scatterAgg, hk, List.map_cons, List.map_nil, hf1, hf2]
  norm_num [mean]

/-! ## Claim C1 -/

/-- Claim C1 counterexample: the prompt "the" yields no keywords under the
sample environment, yet on the empty response the engine short-circuits
and returns query_coverage 0, not 100 — so coverage is not 100 regardless
of response content. -/
theorem query_coverage_stopword_prompt_counterexample :
    promptKeywords sampleEnv (some "the") = [] ∧
    (calculate_metrics sampleEnv (some "the") (some "")).query_coverage = 0 ∧
    (calculate_metrics sampleEnv (some "the") (some "")).query_coverage ≠ 100 :=
  ⟨by decide, by decide, by decide⟩

/-- Claim C1 (amended): whenever the prompt yields no keywords and the
response tokenizes to at least one token, query_coverage is exactly 100;
when the response tokenizes to zero tokens, the empty-response
short-circuit returns 0 instead. -/
theorem query_coverage_no_keywords (env : TokenizerEnv) (prompt response : Option String)
    (hk : promptKeywords env prompt = [])
    (ht : env.word_tokenize (strLower (pyOr response)) ≠ []) :
    (calculate_metrics env prompt response).query_coverage = 100 := by
  simp [calculate_metrics, hk, ht]

/-- Claim C1 witness: a stop-word-only prompt with a nonempty response
gives coverage 100. -/
theorem query_coverage_no_keywords_witness :
    (calculate_metrics sampleEnv (some "the") (some "hello")).query_coverage = 100 :=
  query_coverage_no_keywords sampleEnv (some "the") (some "hello") (by decide) (by decide)

/-! ## Claim C2 -/

/-- Claim C2: the repetition penalty equals the trigram repeat ratio,
except that when the trigram ratio is exactly zero and the token count is
below 50 the bigram ratio is returned instead; the two ratios are never
averaged (the result is always exactly one of them); and for a sequence
with fewer tokens than the n-gram size the ratio is 0. -/
theorem repetition_penalty_tiebreak (tokens : List String) :
    (repetition_penalty tokens =
      if ratio_for_n tokens 3 = 0 ∧ tokens.length < 50 then ratio_for_n tokens 2
      else ratio_for_n tokens 3)
    ∧ (∀ n : Nat, tokens.length < n → ratio_for_n tokens n = 0) := by
  constructor
  · unfold repetition_penalty
    by_cases h3 : ratio_for_n tokens 3 = 0
    · by_cases h50 : tokens.length < 50
      · rw [if_neg, if_pos ⟨h3, h50⟩]
        push_neg
        exact ⟨le_of_eq h3, by omega⟩
      · rw [if_pos (Or.inr (by omega)), if_neg (fun hc => h50 hc.2)]
    · have hpos : 0 < ratio_for_n tokens 3 :=
        lt_of_le_of_ne (ratio_for_n_nonneg tokens 3) (Ne.symm h3)
      rw [if_pos (Or.inl hpos), if_neg (fun hc => h3 hc.1)]
  · intro n hn
    unfold ratio_for_n
    rw [if_pos hn]

/-- Claim C2 witness: a two-token sequence has trigram ratio 0. -/
theorem repetition_penalty_tiebreak_witness :
    ratio_for_n ["a", "b"] 3 = 0 :=
  (repetition_penalty_tiebreak ["a", "b"]).2 3 (by decide)

/-! ## Claim C3 -/

/-- Claim C3: on a nondegenerate range the high-is-better normalization is
100 * (x - min) / (max - min) and the low-is-better normalization is
100 * (max - x) / (max - min); and on the two-group input whose FK-grade
averages are 4 and 10 the normalized FK grades in the scatter view come
out as 0 and 100. -/
theorem norm_minmax_formulas :
    (∀ x vmin vmax : ℚ, vmin ≠ vmax →
      norm_high_is_better x vmin vmax = 100 * (x - vmin) / (vmax - vmin) ∧
      norm_low_is_better x vmin vmax = 100 * (vmax - x) / (vmax - vmin)) ∧
    (get_analytics rowsTwoGroups).scatter_data.map (fun r => r.norm_fk_grade) = [0, 100] := by
  constructor
  · intro x vmin vmax hne
    have h : vmax - vmin ≠ 0 := sub_ne_zero.mpr (Ne.symm hne)
    exact ⟨by simp [norm_high_is_better, h], by simp [norm_low_is_better, h]⟩
  · have hfk : scatterFkMM rowsTwoGroups = (4, 10) := by
      rw [scatterFkMM, scatterAgg_twoGroups]
      simp [min_max]
      try norm_num
    have hrp : scatterRpMM rowsTwoGroups = (1, 3) := by
      rw [scatterRpMM, scatterAgg_twoGroups]
      simp [min_max]
      try norm_num
    simp only [get_analytics, scatterAgg_twoGroups, hfk, hrp, List.map_cons, List.map_nil]
    norm_num [norm_high_is_better, round2_zero, round2_hundred]

/-- Claim C3 witness: the formulas evaluated on the range 4..10. -/
theorem norm_minmax_formulas_witness :
    norm_high_is_better (4 : ℚ) 4 10 = 100 * ((4 : ℚ) - 4) / (10 - 4) ∧
    norm_low_is_better (4 : ℚ) 4 10 = 100 * ((10 : ℚ) - 4) / (10 - 4) :=
  norm_minmax_formulas.1 4 4 10 (by norm_num)

/-! ## Claim C4 -/

/-- Claim C4 counterexample: on an input with a single scatter group the
epsilon guard applies, but both normalized fields come out as exactly 0,
which is not near 100. -/
theorem single_group_counterexample :
    (get_analytics rowsOneGroup).scatter_data.map (fun r => r.norm_fk_grade) = [0] ∧
    (get_analytics rowsOneGroup).scatter_data.map (fun r => r.norm_repetition_penalty) = [0] ∧
    ¬ (90 ≤ (0 : ℚ)) := by
  have hk : scatterKeys rowsOneGroup = [("m1", 0, 0)] := by decide
  obtain ⟨a, ha⟩ : ∃ a, scatterAgg rowsOneGroup = [a] := by
    rw [scatterAgg, hk, List.map_cons, List.map_nil]
    exact ⟨_, rfl⟩
  have hfk : scatterFkMM rowsOneGroup = (a.avg_fk_grade, a.avg_fk_grade) := by
    rw [scatterFkMM, ha]
    simp [min_max]
  have hrp : scatterRpMM rowsOneGroup = (a.avg_repetition_penalty, a.avg_repetition_penalty) := by
    rw [scatterRpMM, ha]
    simp [min_max]
  refine ⟨?_, ?_, by norm_num⟩ <;>
    · simp only [get_analytics, ha, hfk, hrp, List.map_cons, List.map_nil]
      simp [norm_high_self, norm_low_self, round2_zero]

/-- Claim C4 (amended): when the input has exactly one distinct
(model, temperature, top_p) group, the degenerate-range epsilon guard
applies and the group's normalized FK grade and normalized repetition
penalty both resolve to exactly 0, with no error raised. -/
theorem single_group_norm_zero (rows : List EvalRow) (k : String × ℚ × ℚ)
    (hk : scatterKeys rows = [k]) :
    (get_analytics rows).scatter_data.map (fun r => r.norm_fk_grade) = [0] ∧
    (get_analytics rows).scatter_data.map (fun r => r.norm_repetition_penalty) = [0] := by
  obtain ⟨a, ha⟩ : ∃ a, scatterAgg rows = [a] := by
    rw [scatterAgg, hk, List.map_cons, List.map_nil]
    exact ⟨_, rfl⟩
  have hfk : scatterFkMM rows = (a.avg_fk_grade, a.avg_fk_grade) := by
    rw [scatterFkMM, ha]
    simp [min_max]
  have hrp : scatterRpMM rows = (a.avg_repetition_penalty, a.avg_repetition_penalty) := by
    rw [scatterRpMM, ha]
    simp [min_max]
  simp only [get_analytics, ha, hfk, hrp, List.map_cons, List.map_nil]
  simp [norm_high_self, norm_low_self, round2_zero]

/-- Claim C4 witness: a two-row input forming one group normalizes both
fields to 0. -/
theorem single_group_norm_zero_witness :
    (get_analytics rowsOneGroupB).scatter_data.map (fun r => r.norm_fk_grade) = [0] ∧
    (get_analytics rowsOneGroupB).scatter_data.map (fun r => r.norm_repetition_penalty) = [0] :=
  single_group_norm_zero rowsOneGroupB ("mb", 1, 1) (by decide)

/-! ## Claim C5 -/

/-- Claim C5 counterexample: on an input whose single group averages
lexical diversity 2/3, the scatter output carries the averaged field as
the unrounded 2/3, and 2/3 is not equal to its own two-decimal rounding —
so averaged metric fields in the output are not rounded. -/
theorem avg_fields_unrounded_counterexample :
    (get_analytics rowsThirds).scatter_data.map (fun r => r.avg_lexical_diversity)
      = [2/3] ∧
    round2 (2/3 : ℚ) ≠ (2/3 : ℚ) := by
  constructor
  · have hk : scatterKeys rowsThirds = [("m1", 0, 0)] := by decide
    have hf : rowsThirds.filter (fun r => scatterKey r = ("m1", 0, 0)) = rowsThirds := by decide
    have hagg : scatterAgg rowsThirds =
        [ { model := "m1", temperature := 0, top_p := 0, avg_lexical_diversity := 2/3
            avg_query_coverage := 50, avg_fk_grade := 4, avg_repetition_penalty := 1
            run_count := 3 } ] := by
      simp only [scatterAgg, hk, List.map_cons, List.map_nil, hf]
      norm_num [mean, rowsThirds]
    simp only [get_analytics, hagg, List.map_cons, List.map_nil]
    try simp
  · have h1 : (100 : ℚ) * (2/3) = 200/3 := by norm_num
    have hf : ⌊(200 : ℚ)/3⌋ = 66 := by norm_num [Int.floor_eq_iff]
    simp only [round2, h1, hf]
    norm_num

lemma kpiField_rounded (rows : List EvalRow) (f : EvalRow → ℚ) :
    kpiField (overallAvg rows f) = 0 ∨
    kpiField (overallAvg rows f) = round2 (mean (rows.map f)) := by
  unfold overallAvg kpiField
  by_cases h : rows.isEmpty
  · simp [h]
  · simp only [h, Bool.false_eq_true, not_false_eq_true, if_false]
    by_cases hv : mean (rows.map f) = 0
    · left
      simp [hv]
    · right
      simp [hv]

/-- Claim C5 (amended): every normalized field of the scatter and
comparison views is a two-decimal rounding applied at the output boundary
— the normalization consumes the unrounded group averages and the
unrounded min/max over them — every kpi field is either the falsy-guard 0
or the two-decimal rounding of the unrounded overall average, and the
averaged raw metric fields of both views are emitted unrounded. -/
theorem rounding_at_output_boundary (rows : List EvalRow) :
    ((get_analytics rows).scatter_data.map (fun r => r.norm_lexical_diversity)
      = (scatterAgg rows).map (fun a => round2 a.avg_lexical_diversity)) ∧
    ((get_analytics rows).scatter_data.map (fun r => r.norm_query_coverage)
      = (scatterAgg rows).map (fun a => round2 a.avg_query_coverage)) ∧
    ((get_analytics rows).scatter_data.map (fun r => r.norm_fk_grade)
      = (scatterAgg rows).map (fun a =>
          round2 (norm_high_is_better a.avg_fk_grade (scatterFkMM rows).1 (scatterFkMM rows).2))) ∧
    ((get_analytics rows).scatter_data.map (fun r => r.norm_repetition_penalty)
      = (scatterAgg rows).map (fun a =>
          round2 (norm_low_is_better a.avg_repetition_penalty (scatterRpMM rows).1 (scatterRpMM rows).2))) ∧
    ((get_analytics rows).model_comparison.map (fun r => r.norm_lexical_diversity)
      = (compareAgg rows).map (fun a => round2 a.avg_lexical_diversity)) ∧
    ((get_analytics rows).model_comparison.map (fun r => r.norm_query_coverage)
      = (compareAgg rows).map (fun a => round2 a.avg_query_coverage)) ∧
    ((get_analytics rows).model_comparison.map (fun r => r.norm_fk_grade)
      = (compareAgg rows).map (fun a =>
          round2 (norm_high_is_better a.avg_fk_grade (compareFkMM rows).1 (compareFkMM rows).2))) ∧
    ((get_analytics rows).model_comparison.map (fun r => r.norm_repetition_penalty)
      = (compareAgg rows).map (fun a =>
          round2 (norm_low_is_better a.avg_repetition_penalty (compareRpMM rows).1 (compareRpMM rows).2))) ∧
    ((get_analytics rows).scatter_data.map (fun r => r.avg_lexical_diversity)
      = (scatterAgg rows).map (fun a => a.avg_lexical_diversity)) ∧
    ((get_analytics rows).scatter_data.map (fun r => r.avg_query_coverage)
      = (scatterAgg rows).map (fun a => a.avg_query_coverage)) ∧
    ((get_analytics rows).scatter_data.map (fun r => r.avg_fk_grade)
      = (scatterAgg rows).map (fun a => a.avg_fk_grade)) ∧
    ((get_analytics rows).scatter_data.map (fun r => r.avg_repetition_penalty)
      = (scatterAgg rows).map (fun a => a.avg_repetition_penalty)) ∧
    ((get_analytics rows).model_comparison.map (fun r => r.avg_lexical_diversity)
      = (compareAgg rows).map (fun a => a.avg_lexical_diversity)) ∧
    ((get_analytics rows).model_comparison.map (fun r => r.avg_query_coverage)
      = (compareAgg rows).map (fun a => a.avg_query_coverage)) ∧
    ((get_analytics rows).model_comparison.map (fun r => r.avg_fk_grade)
      = (compareAgg rows).map (fun a => a.avg_fk_grade)) ∧
    ((get_analytics rows).model_comparison.map (fun r => r.avg_repetition_penalty)
      = (compareAgg rows).map (fun a => a.avg_repetition_penalty)) ∧
    ((get_analytics rows).kpi.overall_avg_lexical_diversity = 0 ∨
      (get_analytics rows).kpi.overall_avg_lexical_diversity
        = round2 (mean (rows.map (fun r => r.lexical_diversity)))) ∧
    ((get_analytics rows).kpi.overall_avg_query_coverage = 0 ∨
      (get_analytics rows).kpi.overall_avg_query_coverage
        = round2 (mean (rows.map (fun r => r.query_coverage)))) ∧
    ((get_analytics rows).kpi.overall_avg_fk_grade = 0 ∨
      (get_analytics rows).kpi.overall_avg_fk_grade
        = round2 (mean (rows.map (fun r => r.flesch_kincaid_grade)))) ∧
    ((get_analytics rows).kpi.overall_avg_repetition_penalty = 0 ∨
      (get_analytics rows).kpi.overall_avg_repetition_penalty
        = round2 (mean (rows.map (fun r => r.repetition_penalty)))) := by
  refine ⟨?_, ?_, ?_, ?_, ?_, ?_, ?_, ?_, ?_, ?_, ?_, ?_, ?_, ?_, ?_, ?_, ?_, ?_, ?_, ?_⟩
  case _ => simp [get_analytics, List.map_map]
  case _ => simp [get_analytics, List.map_map]
  case _ => simp [get_analytics, List.map_map]
  case _ => simp [get_analytics, List.map_map]
  case _ => simp [get_analytics, List.map_map]
  case _ => simp [get_analytics, List.map_map]
  case _ => simp [get_analytics, List.map_map]
  case _ => simp [get_analytics, List.map_map]
  case _ => simp [get_analytics, List.map_map]
  case _ => simp [get_analytics, List.map_map]
  case _ => simp [get_analytics, List.map_map]
  case _ => simp [get_analytics, List.map_map]
  case _ => simp [get_analytics, List.map_map]
  case _ => simp [get_analytics, List.map_map]
  case _ => simp [get_analytics, List.map_map]
  case _ => simp [get_analytics, List.map_map]
  case _ => simpa [get_analytics] using kpiField_rounded rows (fun r => r.lexical_diversity)
  case _ => simpa [get_analytics] using kpiField_rounded rows (fun r => r.query_coverage)
  case _ => simpa [get_analytics] using kpiField_rounded rows (fun r => r.flesch_kincaid_grade)
  case _ => simpa [get_analytics] using kpiField_rounded rows (fun r => r.repetition_penalty)

/-! ## Claim C6 -/

/-- Claim C6: when the response tokenizes to zero tokens, the engine
short-circuits and returns the canonical all-zero record, with no
exception (the function is total). -/
theorem calculate_metrics_empty_tokens (env : TokenizerEnv) (prompt response : Option String)
    (h : env.word_tokenize (strLower (pyOr response)) = []) :
    calculate_metrics env prompt response =
      { lexical_diversity := 0, query_coverage := 0
        flesch_kincaid_grade := 0, repetition_penalty := 0 } := by
  simp [calculate_metrics, h]

/-- Claim C6 witness: the scenario compute_metrics("", "") yields the
all-zero record. -/
theorem calculate_metrics_empty_tokens_witness :
    calculate_metrics sampleEnv (some "") (some "") =
      { lexical_diversity := 0, query_coverage := 0
        flesch_kincaid_grade := 0, repetition_penalty := 0 } :=
  calculate_metrics_empty_tokens sampleEnv (some "") (some "") (by decide)

/-! ## Claim C7 -/

/-- Claim C7: for a response with a nonempty token sequence, lexical
diversity equals 100 * (number of distinct tokens) / (number of tokens),
is strictly positive, at most 100, and equals 100 exactly when the tokens
are pairwise distinct. -/
theorem lexical_diversity_bounds (env : TokenizerEnv) (prompt response : Option String)
    (tokens : List String)
    (htok : env.word_tokenize (strLower (pyOr response)) = tokens)
    (h : tokens ≠ []) :
    (calculate_metrics env prompt response).lexical_diversity
        = 100 * tokens.dedup.length / tokens.length ∧
    0 < (calculate_metrics env prompt response).lexical_diversity ∧
    (calculate_metrics env prompt response).lexical_diversity ≤ 100 ∧
    ((calculate_metrics env prompt response).lexical_diversity = 100 ↔ tokens.Nodup) := by
  have e : (calculate_metrics env prompt response).lexical_diversity
      = ((tokens.dedup.length : ℚ) / tokens.length) * 100 := by
    simp [calculate_metrics, htok, h]
  have hd1 : 1 ≤ tokens.dedup.length := by
    have hne : tokens.dedup ≠ [] := by
      simpa [List.dedup_eq_nil] using h
    have := List.length_pos.mpr hne
    omega
  have hdn : tokens.dedup.length ≤ tokens.length :=
    (List.dedup_sublist tokens).length_le
  have hn : 0 < tokens.length := List.length_pos.mpr h
  have hnq : (0 : ℚ) < tokens.length := by exact_mod_cast hn
  have hdq : (0 : ℚ) < tokens.dedup.length := by exact_mod_cast hd1
  refine ⟨by rw [e]; ring, ?_, ?_, ?_⟩
  · rw [e]
    positivity
  · rw [e]
    have hq : (tokens.dedup.length : ℚ) ≤ tokens.length := by exact_mod_cast hdn
    rw [div_mul_eq_mul_div, div_le_iff₀ hnq]
    nlinarith
  · rw [e]
    constructor
    · intro h100
      have hdl : (tokens.dedup.length : ℚ) = tokens.length := by
        field_simp at h100
        linarith
      have hlen : tokens.dedup.length = tokens.length := by exact_mod_cast hdl
      have heq : tokens.dedup = tokens := (List.dedup_sublist tokens).eq_of_length hlen
      rw [← heq]
      exact tokens.nodup_dedup
    · intro hnd
      rw [List.dedup_eq_self.mpr hnd, div_self (ne_of_gt hnq)]
      norm_num

/-- Claim C7 witness: the two-token response "a b" has positive lexical
diversity, equal to 100 exactly because its tokens are distinct. -/
theorem lexical_diversity_bounds_witness :
    0 < (calculate_metrics sampleEnv (some "") (some "a b")).lexical_diversity ∧
    ((calculate_metrics sampleEnv (some "") (some "a b")).lexical_diversity = 100 ↔
      (["a", "b"] : List String).Nodup) :=
  ⟨(lexical_diversity_bounds sampleEnv (some "") (some "a b") ["a", "b"]
      (by decide) (by decide)).2.1,
   (lexical_diversity_bounds sampleEnv (some "") (some "a b") ["a", "b"]
      (by decide) (by decide)).2.2.2⟩

/-! ## Claim C8 -/

/-- Claim C8: the heuristic syllable counter returns at least 1 on every
nonempty word, and it agrees with the spec description: count
left-to-right transitions into a vowel group over a,e,i,o,u,y, subtract
one for a trailing "e" only when the unadjusted count exceeds one, and
floor at one. -/
theorem count_syllables_correct (word : String) :
    (word ≠ "" → 1 ≤ count_syllables word) ∧
    count_syllables word = count_syllables_spec word := by
  constructor
  · intro _
    unfold count_syllables
    exact Nat.le_max_right _ 1
  · simp only [count_syllables, count_syllables_spec, transitionsIntoVowelGroup,
      syllableLoop_eq_zip_count]

/-- Claim C8 witness: a concrete nonempty word has at least one syllable. -/
theorem count_syllables_correct_witness :
    1 ≤ count_syllables "strength" :=
  (count_syllables_correct "strength").1 (by decide)

/-! ## Claim C9 -/

/-- Claim C9: on an empty record set the aggregation layer returns empty
scatter and comparison lists and a kpi block whose four overall averages
are all 0, raising no error. -/
theorem get_analytics_empty :
    get_analytics [] =
      { scatter_data := [], model_comparison := []
        kpi := { overall_avg_lexical_diversity := 0, overall_avg_query_coverage := 0
                 overall_avg_fk_grade := 0, overall_avg_repetition_penalty := 0 } } := rfl

/-! ## Claim C10 -/

/-- Claim C10: a None prompt and a None response are treated as the empty
string by the or-guards, so the engine returns the all-zero record on
(None, None) — identical to its result on ("", "") — instead of failing. -/
theorem calculate_metrics_none_inputs (env : TokenizerEnv)
    (h : env.word_tokenize (strLower "") = []) :
    calculate_metrics env none none =
      { lexical_diversity := 0, query_coverage := 0
        flesch_kincaid_grade := 0, repetition_penalty := 0 } ∧
    calculate_metrics env none none = calculate_metrics env (some "") (some "") := by
  refine ⟨?_, rfl⟩
  simp [calculate_metrics, pyOr, h]

/-- Claim C10 witness: the sample environment evaluates (None, None) to
the all-zero record. -/
theorem calculate_metrics_none_inputs_witness :
    calculate_metrics sampleEnv none none =
      { lexical_diversity := 0, query_coverage := 0
        flesch_kincaid_grade := 0, repetition_penalty := 0 } ∧
    calculate_metrics sampleEnv none none = calculate_metrics sampleEnv (some "") (some "") :=
  calculate_metrics_none_inputs sampleEnv (by decide)

end LLMEval
